import Mathlib

/-!
Verification of the threat-designer backend (src/backend/setry): a shallow
embedding of agent.py, utils.py and tools.py, followed by theorems about the
runtime cache, tool resolution, hashing, the artifact cache, the streaming
bridge and the event classifier.

Modelling conventions:
* Python `Dict[str, Any]` payloads are `PyVal` values; a dict is an
  insertion-ordered association list with unique keys.
* `hashlib.md5(x).hexdigest()` is modelled as a collision-free fingerprint:
  the digest carries the exact text/structure that was hashed (`Token`), so
  digest equality coincides with hashed-input equality.  The code only ever
  compares digests for equality and uses them as dict keys.
* Mutable module globals (`cached_agent`, `current_*`, `diagram_cache`) are
  threaded through explicitly as an `AgentState` record.
* External collaborators (S3 fetch, `create_react_agent`, `json.loads`) are
  oracle parameters: a fetch function, a builder success flag, a parser.
-/

set_option linter.unusedVariables false

namespace ThreatDesigner

/-- Decidable equality of `Except` results, for evaluating the model on
concrete inputs. -/
instance {ε α : Type} [DecidableEq ε] [DecidableEq α] : DecidableEq (Except ε α) := fun a b =>
  match a, b with
  | Except.ok x, Except.ok y =>
    if h : x = y then isTrue (by rw [h]) else isFalse (by simp [h])
  | Except.ok _, Except.error _ => isFalse nofun
  | Except.error _, Except.ok _ => isFalse nofun
  | Except.error x, Except.error y =>
    if h : x = y then isTrue (by rw [h]) else isFalse (by simp [h])

/-- A Python/JSON value as it flows through the FastAPI handlers
(`Dict[str, Any]` request bodies, context mappings, tool-result payloads). -/
inductive PyVal where
  | vNone
  | vInt (n : Int)
  | vStr (s : String)
  | vList (xs : List PyVal)
  | vDict (entries : List (String × PyVal))

mutual

/-- Decidable equality for `PyVal` (the nested inductive defeats `deriving`). -/
def PyVal.decEq : (a b : PyVal) → Decidable (a = b)
  | .vNone, .vNone => isTrue rfl
  | .vNone, .vInt _ => isFalse nofun
  | .vNone, .vStr _ => isFalse nofun
  | .vNone, .vList _ => isFalse nofun
  | .vNone, .vDict _ => isFalse nofun
  | .vInt _, .vNone => isFalse nofun
  | .vInt n, .vInt m =>
    if h : n = m then isTrue (by rw [h]) else isFalse (by simp [h])
  | .vInt _, .vStr _ => isFalse nofun
  | .vInt _, .vList _ => isFalse nofun
  | .vInt _, .vDict _ => isFalse nofun
  | .vStr _, .vNone => isFalse nofun
  | .vStr _, .vInt _ => isFalse nofun
  | .vStr s, .vStr t =>
    if h : s = t then isTrue (by rw [h]) else isFalse (by simp [h])
  | .vStr _, .vList _ => isFalse nofun
  | .vStr _, .vDict _ => isFalse nofun
  | .vList _, .vNone => isFalse nofun
  | .vList _, .vInt _ => isFalse nofun
  | .vList _, .vStr _ => isFalse nofun
  | .vList xs, .vList ys =>
    match PyVal.decEqList xs ys with
    | isTrue h => isTrue (by rw [h])
    | isFalse h => isFalse (by simp [h])
  | .vList _, .vDict _ => isFalse nofun
  | .vDict _, .vNone => isFalse nofun
  | .vDict _, .vInt _ => isFalse nofun
  | .vDict _, .vStr _ => isFalse nofun
  | .vDict _, .vList _ => isFalse nofun
  | .vDict es, .vDict fs =>
    match PyVal.decEqEntries es fs with
    | isTrue h => isTrue (by rw [h])
    | isFalse h => isFalse (by simp [h])

/-- Decidable equality for lists of `PyVal`. -/
def PyVal.decEqList : (xs ys : List PyVal) → Decidable (xs = ys)
  | [], [] => isTrue rfl
  | [], _ :: _ => isFalse nofun
  | _ :: _, [] => isFalse nofun
  | x :: xs, y :: ys =>
    match PyVal.decEq x y with
    | isFalse h => isFalse (by simp [h])
    | isTrue h1 =>
      match PyVal.decEqList xs ys with
      | isTrue h2 => isTrue (by rw [h1, h2])
      | isFalse h2 => isFalse (by simp [h2])

/-- Decidable equality for dict entry lists. -/
def PyVal.decEqEntries : (es fs : List (String × PyVal)) → Decidable (es = fs)
  | [], [] => isTrue rfl
  | [], _ :: _ => isFalse nofun
  | _ :: _, [] => isFalse nofun
  | (k, v) :: es, (l, w) :: fs =>
    if h : k = l then
      match PyVal.decEq v w with
      | isFalse h2 => isFalse (by simp [h2])
      | isTrue h2 =>
        match PyVal.decEqEntries es fs with
        | isTrue h3 => isTrue (by rw [h, h2, h3])
        | isFalse h3 => isFalse (by simp [h3])
    else isFalse (by simp [h])

end

instance : DecidableEq PyVal := PyVal.decEq

/-- Python `d[k]`-style lookup in an (insertion-ordered) dict. -/
def dict_find (d : List (String × PyVal)) (k : String) : Option PyVal :=
  (d.find? (fun p => p.1 == k)).map (fun p => p.2)

/-- Python `d.get(k)`: `None` when the key is absent. -/
def dict_get (d : List (String × PyVal)) (k : String) : PyVal :=
  (dict_find d k).getD PyVal.vNone

/-! ### String primitives

Python's `str` operations are modelled directly on the underlying character
list (`String`'s iterator-based library functions are opaque to kernel
reduction, which concrete evaluations need). -/

/-- Lexicographic less-or-equal on character lists (the order Python's string
comparison and `sorted()` use, restricted to the code's ASCII inputs). -/
def charListLeB : List Char → List Char → Bool
  | [], _ => true
  | _ :: _, [] => false
  | a :: as, b :: bs =>
    if a < b then true
    else if b < a then false
    else charListLeB as bs

/-- Lexicographic string order. -/
def strLe (a b : String) : Prop := charListLeB a.data b.data = true

instance : DecidableRel strLe := fun a b =>
  inferInstanceAs (Decidable (charListLeB a.data b.data = true))

/-- Python `s.lower()` (ASCII case folding, as the tool names require). -/
def strLower (s : String) : String := ⟨s.data.map Char.toLower⟩

/-- Python `s.strip()`: drop whitespace from both ends. -/
def pyStrip (s : String) : String :=
  ⟨(((s.data.dropWhile Char.isWhitespace).reverse.dropWhile Char.isWhitespace).reverse)⟩

/-- Splitting a character list at commas (`str.split(",")` keeps empty parts). -/
def splitCommaGo (cur : List Char) : List Char → List (List Char)
  | [] => [cur.reverse]
  | c :: cs => if c = ',' then cur.reverse :: splitCommaGo [] cs else splitCommaGo (c :: cur) cs

/-- Python `s.split(",")`. -/
def splitComma (s : String) : List String := (splitCommaGo [] s.data).map (fun cs => (⟨cs⟩ : String))

/-- Digit-sequence parsing for Python `int(str)`. -/
def digitsToNat (cs : List Char) : Option Nat :=
  if cs ≠ [] ∧ cs.all Char.isDigit then
    some (cs.foldl (fun n c => n * 10 + (c.toNat - 48)) 0)
  else none

/-- Python `int()` applied to an already-stripped string: an optional sign
followed by digits; anything else is a `ValueError`. -/
def pyParseInt (s : String) : Option Int :=
  match s.data with
  | '-' :: rest => (digitsToNat rest).map (fun n => -(n : Int))
  | '+' :: rest => (digitsToNat rest).map (fun n => (n : Int))
  | cs => (digitsToNat cs).map (fun n => (n : Int))

/-- Python `s.startswith(pre)`. -/
def strStartsWith (s pre : String) : Bool := s.data.take pre.data.length == pre.data

/-- Python `s.endswith(suf)`. -/
def strEndsWith (s suf : String) : Bool := s.data.reverse.take suf.data.length == suf.data.reverse

/-- `charListLeB` is total. -/
theorem charListLeB_total : ∀ as bs, charListLeB as bs = true ∨ charListLeB bs as = true := by
  intro as
  induction as with
  | nil => intro bs; left; rfl
  | cons a as ih =>
    intro bs
    cases bs with
    | nil => right; rfl
    | cons b bs =>
      by_cases hab : a < b
      · left; simp [charListLeB, hab]
      · by_cases hba : b < a
        · right; simp [charListLeB, hba]
        · rcases ih bs with h | h
          · left; simp [charListLeB, hab, hba, h]
          · right; simp [charListLeB, hab, hba, h]

/-- `charListLeB` is antisymmetric. -/
theorem charListLeB_antisymm : ∀ as bs, charListLeB as bs = true →
    charListLeB bs as = true → as = bs := by
  intro as
  induction as with
  | nil =>
    intro bs h1 h2
    cases bs with
    | nil => rfl
    | cons b bs => simp [charListLeB] at h2
  | cons a as ih =>
    intro bs h1 h2
    cases bs with
    | nil => simp [charListLeB] at h1
    | cons b bs =>
      by_cases hab : a < b
      · have hba : ¬ b < a := lt_asymm hab
        simp [charListLeB, hba, hab] at h2
      · by_cases hba : b < a
        · simp [charListLeB, hab, hba] at h1
        · have heq : a = b := le_antisymm (not_lt.mp hba) (not_lt.mp hab)
          subst heq
          simp only [charListLeB, lt_irrefl, if_false] at h1 h2
          rw [ih bs h1 h2]

/-- `charListLeB` is transitive. -/
theorem charListLeB_trans : ∀ as bs cs, charListLeB as bs = true →
    charListLeB bs cs = true → charListLeB as cs = true := by
  intro as
  induction as with
  | nil => intro bs cs h1 h2; rfl
  | cons a as ih =>
    intro bs cs h1 h2
    cases bs with
    | nil => simp [charListLeB] at h1
    | cons b bs =>
      cases cs with
      | nil => simp [charListLeB] at h2
      | cons c cs =>
        by_cases hab : a < b
        · by_cases hbc : b < c
          · simp [charListLeB, lt_trans hab hbc]
          · by_cases hcb : c < b
            · simp [charListLeB, hbc, hcb] at h2
            · have heq : b = c := le_antisymm (not_lt.mp hcb) (not_lt.mp hbc)
              subst heq
              simp [charListLeB, hab]
        · by_cases hba : b < a
          · simp [charListLeB, hab, hba] at h1
          · have heq : a = b := le_antisymm (not_lt.mp hba) (not_lt.mp hab)
            subst heq
            by_cases hac : a < c
            · simp [charListLeB, hac]
            · by_cases hca : c < a
              · simp [charListLeB, hac, hca] at h2
              · simp only [charListLeB, lt_irrefl, if_false, hac, hca] at h1 h2 ⊢
                exact ih bs cs h1 h2

/-- A string is determined by its character list. -/
theorem str_data_inj {a b : String} (h : a.data = b.data) : a = b :=
  String.ext h

/-- `strLe` is antisymmetric. -/
theorem strLe_antisymm {a b : String} (h1 : strLe a b) (h2 : strLe b a) : a = b :=
  str_data_inj (charListLeB_antisymm a.data b.data h1 h2)

instance : IsTotal String strLe := ⟨fun a b => charListLeB_total a.data b.data⟩

instance : IsTrans String strLe := ⟨fun a b c => charListLeB_trans a.data b.data c.data⟩

/-- A registered LangChain tool.  `tid` models Python object identity
(`id(tool)`), which the dedup loop in `get_tools_for_preferences` uses. -/
structure Tool where
  name : String
  tid : Nat
deriving DecidableEq

/-- tools.py: `@tool(name_or_callable="add_threats") def add_threats ...` -/
def add_threats : Tool := ⟨"add_threats", 0⟩

/-- tools.py: `@tool(name_or_callable="edit_threats") def edit_threats ...` -/
def edit_threats : Tool := ⟨"edit_threats", 1⟩

/-- tools.py: `@tool(name_or_callable="delete_threats") def delete_threats ...` -/
def delete_threats : Tool := ⟨"delete_threats", 2⟩

/-- agent.py: `ALL_AVAILABLE_TOOLS = [add_threats, edit_threats, delete_threats]` -/
def ALL_AVAILABLE_TOOLS : List Tool := [add_threats, edit_threats, delete_threats]

/-- agent.py: `TOOL_NAME_MAP = {tool.name: tool for tool in ALL_AVAILABLE_TOOLS}` -/
def TOOL_NAME_MAP : List (String × Tool) := ALL_AVAILABLE_TOOLS.map (fun t => (t.name, t))

/-- Key order used by `json.dumps(-, sort_keys=True)`: dict entries compare by key. -/
def ctxKeyLe (p q : String × PyVal) : Prop := strLe p.1 q.1

instance : DecidableRel ctxKeyLe := fun p q => inferInstanceAs (Decidable (strLe p.1 q.1))

instance : IsTotal (String × PyVal) ctxKeyLe := ⟨fun p q => charListLeB_total p.1.data q.1.data⟩

instance : IsTrans (String × PyVal) ctxKeyLe :=
  ⟨fun _ _ _ h1 h2 => charListLeB_trans _ _ _ h1 h2⟩

mutual

/-- The key-sorting normalisation performed by `json.dumps(-, sort_keys=True)`:
object keys are emitted in sorted order at every nesting level. -/
def canonical : PyVal → PyVal
  | .vNone => .vNone
  | .vInt n => .vInt n
  | .vStr s => .vStr s
  | .vList xs => .vList (canonicalList xs)
  | .vDict es => .vDict (List.insertionSort ctxKeyLe (canonicalEntries es))

/-- `canonical` mapped over a JSON array. -/
def canonicalList : List PyVal → List PyVal
  | [] => []
  | x :: xs => canonical x :: canonicalList xs

/-- `canonical` mapped over the values of a JSON object. -/
def canonicalEntries : List (String × PyVal) → List (String × PyVal)
  | [] => []
  | (k, v) :: es => (k, canonical v) :: canonicalEntries es

end

/-- An md5 hexdigest as produced by `hashlib.md5(x).hexdigest()`, plus the two
sentinel strings the hashing helpers return instead of a digest.  md5 is
modelled as a collision-free fingerprint: a digest is represented by the exact
data that was hashed, so digest equality coincides with input equality.  The
sentinels `"no_context"`/`"no_diagram"` are not hex digests, hence separate
constructors. -/
inductive Token where
  | noContext
  | noDiagram
  | md5Json (entries : List (String × PyVal))
  | md5Str (s : String)
  | md5Tools (names : List String)
deriving DecidableEq

/-- A context mapping (`Optional[Dict[str, Any]]` in the source). -/
abbrev Ctx := List (String × PyVal)

/-- utils.get_context_hash: `"no_context"` when the context is `None`, else
`md5(json.dumps(context, sort_keys=True))`.  The dumps-then-md5 composite is
modelled as a collision-free digest of the canonically key-sorted entries. -/
def get_context_hash (context : Option Ctx) : Token :=
  match context with
  | none => Token.noContext
  | some ctx => Token.md5Json (List.insertionSort ctxKeyLe (canonicalEntries ctx))

/-- utils.get_diagram_hash: `"no_diagram"` when the path is `None`, else
`md5(diagram_path)`. -/
def get_diagram_hash (diagram_path : Option String) : Token :=
  match diagram_path with
  | none => Token.noDiagram
  | some p => Token.md5Str p

/-- utils.get_tools_hash:
`md5(str(sorted([f"module.name" for tool in tools])))`; every registered tool
lives in module `tools`. -/
def get_tools_hash (tools : List Tool) : Token :=
  Token.md5Tools (List.insertionSort strLe (tools.map (fun t => "tools." ++ t.name)))

/-- The exact-name lookup `tool_name in tool_name_map` / `tool_name_map[tool_name]`. -/
def lookupExact (tool_name_map : List (String × Tool)) (tool_name : String) : Option Tool :=
  (tool_name_map.find? (fun p => p.1 == tool_name)).map (fun p => p.2)

/-- The case-insensitive scan over `tool_name_map.items()` in insertion order;
the loop records the registered `available_name` together with the tool. -/
def lookupCaseInsensitive (tool_name_map : List (String × Tool)) (tool_name : String) :
    Option (String × Tool) :=
  tool_name_map.find? (fun p => strLower p.1 == strLower tool_name)

/-- The selection loop of utils.get_tools_for_preferences, returning
`(selected_tools, valid_tool_names, invalid_tool_names)`. -/
def selectTools (tool_name_map : List (String × Tool)) :
    List String → List Tool × List String × List String
  | [] => ([], [], [])
  | tool_name :: rest =>
    let r := selectTools tool_name_map rest
    match lookupExact tool_name_map tool_name with
    | some t => (t :: r.1, tool_name :: r.2.1, r.2.2)
    | none =>
      match lookupCaseInsensitive tool_name_map tool_name with
      | some p => (p.2 :: r.1, p.1 :: r.2.1, r.2.2)
      | none => (r.1, r.2.1, tool_name :: r.2.2)

/-- The dedup loop of utils.get_tools_for_preferences: `seen` accumulates
`id(tool)` values, the first occurrence of each identity is kept. -/
def dedupGo (seen : List Nat) : List Tool → List Tool
  | [] => []
  | t :: ts => if t.tid ∈ seen then dedupGo seen ts else t :: dedupGo (t.tid :: seen) ts

/-- utils.get_tools_for_preferences: exact match first, else case-insensitive;
unmatched names only collected; zero resolved tools falls back to the full
registry; duplicates (by identity) removed keeping first occurrences.  A `None`
or empty preference list (`if not tool_preferences`) yields all tools. -/
def get_tools_for_preferences (tool_preferences : Option (List String))
    (all_available_tools : List Tool) (tool_name_map : List (String × Tool)) : List Tool :=
  match tool_preferences with
  | none => all_available_tools
  | some [] => all_available_tools
  | some prefs =>
    let r := selectTools tool_name_map prefs
    if r.1 = [] then all_available_tools
    else dedupGo [] r.1

/-- Python `str()` applied to the values that may appear in a
`tool_preferences` list.  Container renderings are fixed placeholders; only the
scalar renderings matter to any claim. -/
def pyStr : PyVal → String
  | .vNone => "None"
  | .vInt n => toString n
  | .vStr s => s
  | .vList _ => "[...]"
  | .vDict _ => "dict"

/-- utils.extract_tool_preferences: a comma-separated string or a list under
key `"tool_preferences"`; entries stripped, falsy entries dropped; an empty
result (and any other shape) yields `None`. -/
def extract_tool_preferences (input_data : List (String × PyVal)) : Option (List String) :=
  match dict_find input_data "tool_preferences" with
  | some (.vStr prefs) =>
    let tool_list := ((splitComma prefs).map (fun p => pyStrip p)).filter (fun p => p ≠ "")
    if tool_list = [] then none else some tool_list
  | some (.vList prefs) =>
    let tool_list := (prefs.map (fun p => pyStrip (pyStr p))).filter (fun p => p ≠ "")
    if tool_list = [] then none else some tool_list
  | _ => none

/-- utils.extract_context: `input_data.get("context")`.  A present mapping is
returned as is; an absent key or explicit null yields `None`.  (Non-mapping
context values are outside this model.) -/
def extract_context (input_data : List (String × PyVal)) : Option Ctx :=
  match dict_find input_data "context" with
  | some (.vDict es) => some es
  | _ => none

/-- utils.extract_diagram_path: `input_data.get("diagram")`.  (Non-string
diagram values are outside this model.) -/
def extract_diagram_path (input_data : List (String × PyVal)) : Option String :=
  match dict_find input_data "diagram" with
  | some (.vStr s) => some s
  | _ => none

/-- Python `int(x)`: succeeds on ints and numeric strings, raises `TypeError`
on `None` (and other non-numbers), `ValueError` on non-numeric strings. -/
def pyIntCoe : PyVal → Except String Int
  | .vInt n => Except.ok n
  | .vStr s =>
    match pyParseInt (pyStrip s) with
    | some n => Except.ok n
    | none => Except.error "ValueError"
  | _ => Except.error "TypeError"

/-- agent.extract_budget_level: `int(input_data.get("budget_level"))`.  Despite
the `Optional[int]` annotation this either produces an int or raises. -/
def extract_budget_level (input_data : List (String × PyVal)) : Except String PyVal :=
  (pyIntCoe (dict_get input_data "budget_level")).map PyVal.vInt

/-- The S3 `get_object` response fields the code consults:
`response.get('ContentType', ...)` and `response['Body'].read()`. -/
structure FetchResp where
  contentType : Option String
  body : String
deriving DecidableEq

/-- The cached artifact: the code stores
`{"type": "image_url", "image_url": {"url": f"data:{ct};base64,{data}"}}`;
only the inner url is consulted afterwards. -/
structure Artifact where
  url : String
deriving DecidableEq

/-- `base64.b64encode(content).decode('utf-8')`: modelled as the identity on
the payload text; like base64 it is deterministic and injective. -/
def b64encode (s : String) : String := s

/-- The module-level `diagram_cache` dict, keyed by `get_diagram_hash` output. -/
abbrev DCache := List (Token × Artifact)

/-- Dict lookup in the diagram cache. -/
def dcache_find (cache : DCache) (k : Token) : Option Artifact :=
  (cache.find? (fun p => p.1 == k)).map (fun p => p.2)

/-- agent.py / utils.py constants (environment-variable defaults). -/
def MODEL_ID : String := "us.anthropic.claude-sonnet-4-20250514-v1:0"

/-- The default S3 bucket name. -/
def S3_BUCKET : String := "threat-designer-architecture-541020177866-apx0st"

/-- The content-type resolution policy of utils.download_and_cache_diagram:
trust an image content type (other than a generic octet-stream), else infer
from the key's extension, defaulting to JPEG. -/
def resolveContentType (content_type : String) (s3_key : String) : String :=
  if strStartsWith content_type "image/" && content_type != "application/octet-stream" then
    content_type
  else
    let k := strLower s3_key
    if strEndsWith k ".jpg" || strEndsWith k ".jpeg" then "image/jpeg"
    else if strEndsWith k ".png" then "image/png"
    else if strEndsWith k ".gif" then "image/gif"
    else if strEndsWith k ".webp" then "image/webp"
    else if strEndsWith k ".bmp" then "image/bmp"
    else "image/jpeg"

/-- The `cached_data` value built on a successful fetch:
`{"type": "image_url", "image_url": {"url": f"data:{content_type};base64,{image_data}"}}`. -/
def mkCachedArtifact (response : FetchResp) (diagram_path : String) : Artifact :=
  ⟨"data:" ++ resolveContentType (response.contentType.getD "image/jpeg") diagram_path ++
    ";base64," ++ b64encode response.body⟩

/-- utils.download_and_cache_diagram.  `fetch` is the S3 `get_object`
collaborator (`none` = any raised error).  Returns the resulting artifact, the
updated cache, and how many fetch attempts this call made (0 or 1).  A failed
or empty fetch returns `None` and writes nothing to the cache. -/
def download_and_cache_diagram (fetch : String → Option FetchResp)
    (s3_bucket : String) (diagram_path : String) (cache : DCache) :
    Option Artifact × DCache × Nat :=
  if s3_bucket = "" then (none, cache, 0)
  else if diagram_path = "" then (none, cache, 0)
  else
    match dcache_find cache (get_diagram_hash (some diagram_path)) with
    | some cached_data => (some cached_data, cache, 0)
    | none =>
      match fetch diagram_path with
      | none => (none, cache, 1)
      | some response =>
        if response.body = "" then (none, cache, 1)
        else
          (some (mkCachedArtifact response diagram_path),
            (get_diagram_hash (some diagram_path),
              mkCachedArtifact response diagram_path) :: cache, 1)

/-- The `additional_model_request_fields` attached when thinking is enabled:
a token budget plus the `anthropic_beta` interleaved-thinking flag. -/
structure ThinkingFields where
  budget_tokens : Int
  interleaved_beta : Bool
deriving DecidableEq

/-- The model configuration built by agent.create_model_config. -/
structure ModelConfig where
  max_tokens : Int
  model_id : String
  additional_model_request_fields : Option ThinkingFields
deriving DecidableEq

/-- The dict lookup `{1: 8000, 2: 16000, 3: 31999}.get(budget_level, default)`. -/
def budget_mapping_get (budget_level : Int) (default : Int) : Int :=
  if budget_level = 1 then 8000
  else if budget_level = 2 then 16000
  else if budget_level = 3 then 31999
  else default

/-- agent.create_model_config: level 0 returns the bare config (no thinking
fields at all); any other level attaches a thinking budget (8000/16000/31999
for levels 1/2/3, defaulting to 8000) plus the interleaved-thinking beta. -/
def create_model_config (budget_level : Int) : ModelConfig :=
  let base : ModelConfig :=
    { max_tokens := 64000, model_id := MODEL_ID, additional_model_request_fields := none }
  if budget_level = 0 then base
  else
    let budget_tokens := budget_mapping_get budget_level 8000
    { base with additional_model_request_fields :=
        (some ⟨budget_tokens, true⟩ : Option ThinkingFields) }

/-- The mutable module globals of agent.py (plus utils.py's `diagram_cache`),
threaded explicitly.  `next_agent_id` is a modelling device: each successful
`create_react_agent` call yields a fresh runtime instance, so instances are
numbered and the counter doubles as the number of builder invocations. -/
structure AgentState where
  cached_agent : Option Nat
  current_tool_preferences : Option (List String)
  current_tools_hash : Option Token
  current_context_hash : Option Token
  current_diagram_hash : Option Token
  current_diagram_data : Option Artifact
  current_context : Option Ctx
  current_budget_level : Int
  diagram_cache : DCache
  next_agent_id : Nat
deriving DecidableEq

/-- The diagram-processing step inside the rebuild branch of
utils.get_or_create_agent: skip falsy paths, consult the cache first, else
download (which itself re-checks the cache and may write it). -/
def resolve_diagram_data (fetch : String → Option FetchResp)
    (diagram_path : Option String) (cache : DCache) : Option Artifact × DCache :=
  match diagram_path with
  | none => (none, cache)
  | some p =>
    if p = "" then (none, cache)
    else
      match dcache_find cache (get_diagram_hash (some p)) with
      | some d => (some d, cache)
      | none =>
        let r := download_and_cache_diagram fetch S3_BUCKET p cache
        (r.1, r.2.1)

/-- The diagram lookup on the reuse branch of utils.get_or_create_agent
(read-only, no download). -/
def cached_diagram_lookup (diagram_path : Option String) (cache : DCache) : Option Artifact :=
  match diagram_path with
  | none => none
  | some p =>
    if p = "" then none
    else dcache_find cache (get_diagram_hash (some p))

/-- utils.get_or_create_agent.  `builder_ok` is the outcome of the remainder of
the `try` block (system-prompt construction plus `create_react_agent`); on
failure the exception propagates (`Except.error`) and only the diagram cache
may have gained entries.  Returns the 7-tuple the source returns, plus the
updated diagram cache and agent-id counter. -/
def get_or_create_agent (fetch : String → Option FetchResp) (builder_ok : Bool)
    (tool_preferences : Option (List String)) (context : Option Ctx)
    (diagram_path : Option String)
    (all_available_tools : List Tool) (tool_name_map : List (String × Tool))
    (current_tool_preferences : Option (List String))
    (current_tools_hash current_context_hash current_diagram_hash : Option Token)
    (cached_agent : Option Nat) (current_context : Option Ctx)
    (diagram_cache : DCache) (next_agent_id : Nat) :
    Except Unit (Option Nat × Option (List String) × Option Token × Option Token ×
      Option Token × Option Artifact × Option Ctx) × DCache × Nat :=
  if current_tool_preferences ≠ tool_preferences ∨
      current_tools_hash ≠
        some (get_tools_hash
          (get_tools_for_preferences tool_preferences all_available_tools tool_name_map)) ∨
      current_context_hash ≠ some (get_context_hash context) ∨
      current_diagram_hash ≠ some (get_diagram_hash diagram_path) ∨
      cached_agent = none then
    if builder_ok then
      (Except.ok (some next_agent_id, tool_preferences,
        some (get_tools_hash
          (get_tools_for_preferences tool_preferences all_available_tools tool_name_map)),
        some (get_context_hash context), some (get_diagram_hash diagram_path),
        (resolve_diagram_data fetch diagram_path diagram_cache).1, context),
        (resolve_diagram_data fetch diagram_path diagram_cache).2, next_agent_id + 1)
    else
      (Except.error (), (resolve_diagram_data fetch diagram_path diagram_cache).2, next_agent_id)
  else
    (Except.ok (cached_agent, current_tool_preferences, current_tools_hash,
      current_context_hash, current_diagram_hash,
      cached_diagram_lookup diagram_path diagram_cache, current_context),
      diagram_cache, next_agent_id)

/-- The budget-change pre-step of agent.get_agent_with_preferences: a changed
budget level is written to `current_budget_level` immediately and
`cached_agent` is cleared to force recreation, before any build runs. -/
def budget_adjust (budget_level : Int) (st : AgentState) : AgentState :=
  if st.current_budget_level ≠ budget_level then
    { st with current_budget_level := budget_level, cached_agent := none }
  else st

/-- agent.get_agent_with_preferences: the budget pre-step runs first, then
`get_or_create_agent`; only on success is its 7-tuple written back to the
globals (an exception skips the write-back, leaving the pre-step's effect). -/
def get_agent_with_preferences (fetch : String → Option FetchResp) (builder_ok : Bool)
    (tool_preferences : Option (List String)) (context : Option Ctx)
    (diagram_path : Option String) (budget_level : Int)
    (st : AgentState) : Except Unit (Option Nat) × AgentState :=
  match get_or_create_agent fetch builder_ok tool_preferences context diagram_path
      ALL_AVAILABLE_TOOLS TOOL_NAME_MAP
      (budget_adjust budget_level st).current_tool_preferences
      (budget_adjust budget_level st).current_tools_hash
      (budget_adjust budget_level st).current_context_hash
      (budget_adjust budget_level st).current_diagram_hash
      (budget_adjust budget_level st).cached_agent
      (budget_adjust budget_level st).current_context
      (budget_adjust budget_level st).diagram_cache
      (budget_adjust budget_level st).next_agent_id with
  | (Except.error e, dc, nid) =>
    (Except.error e,
      { budget_adjust budget_level st with diagram_cache := dc, next_agent_id := nid })
  | (Except.ok (a, p, th, ch, dh, ddata, cx), dc, nid) =>
    (Except.ok a,
      { cached_agent := a, current_tool_preferences := p, current_tools_hash := th,
        current_context_hash := ch, current_diagram_hash := dh,
        current_diagram_data := ddata, current_context := cx,
        current_budget_level := (budget_adjust budget_level st).current_budget_level,
        diagram_cache := dc, next_agent_id := nid })

/-- Lines 289-315 of agent.streaming_invoke: the runtime-resolution prefix run
inside the request semaphore.  When a runtime is cached the request body is
never consulted; otherwise facets are extracted (`int()` on the budget may
raise) and the cache resolves.  Returns the agent to stream with and the
`image_data` handed to the stream, plus the resulting globals. -/
def streaming_resolve (fetch : String → Option FetchResp) (builder_ok : Bool)
    (input : List (String × PyVal)) (st : AgentState) :
    Except Unit (Option Nat × Option String) × AgentState :=
  match st.cached_agent with
  | some a =>
    (Except.ok (some a, st.current_diagram_data.map (fun d => d.url)), st)
  | none =>
    let tool_preferences := extract_tool_preferences input
    let context := extract_context input
    let diagram_path := extract_diagram_path input
    match extract_budget_level input with
    | Except.error _ => (Except.error (), st)
    | Except.ok bv =>
      let budget_level :=
        match bv with
        | PyVal.vNone => st.current_budget_level
        | PyVal.vInt n => n
        | _ => 0
      match get_agent_with_preferences fetch builder_ok tool_preferences context
          diagram_path budget_level st with
      | (Except.error e, st') => (Except.error (), st')
      | (Except.ok a, st') =>
        (Except.ok (a, st'.current_diagram_data.map (fun d => d.url)), st')

/-- The `prepare` branch of agent.invoke (lines 215-242): always extracts the
facets (`int()` on the budget may raise) and resolves the runtime. -/
def prepare_resolve (fetch : String → Option FetchResp) (builder_ok : Bool)
    (input : List (String × PyVal)) (st : AgentState) :
    Except Unit (Option Nat) × AgentState :=
  let tool_preferences := extract_tool_preferences input
  let context := extract_context input
  let diagram_path := extract_diagram_path input
  match extract_budget_level input with
  | Except.error _ => (Except.error (), st)
  | Except.ok bv =>
    let budget_level :=
      match bv with
      | PyVal.vNone => st.current_budget_level
      | PyVal.vInt n => n
      | _ => 0
    get_agent_with_preferences fetch builder_ok tool_preferences context diagram_path
      budget_level st

/-! ## The streaming bridge (agent.async_stream_generator)

The worker thread (`process_stream`) pushes every produced `(mode, data)` pair
into an asyncio queue via `run_coroutine_threadsafe`; on an exception it pushes
`("error", e)`, and in a `finally` block it always pushes `("done", None)`.
Since all pushes come from one thread and the queue is FIFO, the consumer sees
exactly the pushed sequence in order; the embedding therefore works on that
queue sequence. -/

/-- An entry of the hand-off queue. -/
inductive QItem (α ε : Type) where
  | item (a : α)
  | failure (e : ε)
  | done

/-- The queue contents produced by `process_stream` for a producer that emits
`items` and then either completes (`fail = none`) or raises (`fail = some e`):
the items in order, the error marker if any, then the `finally` done marker. -/
def producer_queue {α ε : Type} (items : List α) (fail : Option ε) : List (QItem α ε) :=
  items.map QItem.item ++
    (match fail with
     | some e => [QItem.failure e]
     | none => []) ++ [QItem.done]

/-- How the consumer loop of async_stream_generator finishes. -/
inductive StreamOutcome (ε : Type) where
  | endedJoined
  -- the loop broke on "done" and then reached `await future`, joining the worker
  | raised (e : ε)
  -- the loop re-raised a producer failure (`raise data`), skipping the join
  | starved
  -- the queue ran out without a terminal marker (unreachable for producer_queue)
deriving DecidableEq

/-- The consumer `while True` loop: yield items in queue order, break on
"done" (after which the worker future is awaited), re-raise on "error". -/
def consumeQueue {α ε : Type} : List (QItem α ε) → List α × StreamOutcome ε
  | [] => ([], StreamOutcome.starved)
  | QItem.done :: _ => ([], StreamOutcome.endedJoined)
  | QItem.failure e :: _ => ([], StreamOutcome.raised e)
  | QItem.item a :: rest =>
    let r := consumeQueue rest
    (a :: r.1, r.2)

/-- agent.async_stream_generator end to end: the worker produces the queue,
the asynchronous side consumes it. -/
def async_stream_generator {α ε : Type} (items : List α) (fail : Option ε) :
    List α × StreamOutcome ε :=
  consumeQueue (producer_queue items fail)

/-! ## The event classifier (agent.streaming_invoke, lines 390-444) -/

/-- The `reasoning_content` sub-dict of a reasoning content item, projected to
the one key consulted (`.get('text')`). -/
structure ReasoningContent where
  text : Option String
deriving DecidableEq

/-- A content-list entry (a dict), projected to the keys the classifier
consults via `.get(...)`. -/
structure ContentItem where
  type : Option String
  text : Option String
  name : Option String
  reasoning_content : Option ReasoningContent
deriving DecidableEq

/-- A message chunk: either a `ToolMessage` (string content, tool name, status)
or an AI message chunk (a list of content-item dicts).  Both carry
`response_metadata.get('stopReason')`. -/
inductive Chunk where
  | toolMessage (stopReason : Option String) (content : String)
      (name : Option String) (status : String)
  | aiMessage (stopReason : Option String) (content : List ContentItem)
deriving DecidableEq

/-- A raw stream event `(mode, data)`: an "updates" item (with the value of
`data["__interrupt__"][0].value` when the marker is present) or a "messages"
item carrying a chunk. -/
inductive RawEvent where
  | updates (interruptValue : Option PyVal)
  | messages (chunk : Chunk)
deriving DecidableEq

/-- The typed client events yielded by the classification loop. -/
inductive ClientEvent where
  | interruptEv (content : PyVal)
  | endTurn
  -- `{end: True}`
  | toolStart (tool_name : String)
  -- `{type: tool, tool_name, tool_start: True}`
  | toolResult (tool_name : Option String) (content : PyVal) (error : Bool)
  -- `{type: tool, tool_name, tool_start: False, content, error}`
  | textEv (content : Option String)
  | thinkingEv (content : Option String)
deriving DecidableEq

/-- The per-event classification performed by the `async for` body of
agent.streaming_invoke.  `jloads` is the `json.loads` collaborator (`none` =
`JSONDecodeError`).  Result: `Except.ok none` = suppressed (no yield),
`Except.ok (some ev)` = one yielded event, `Except.error` = the body itself
raised (only possible for a reasoning item whose `reasoning_content` key is
missing, where `.get('text')` is called on `None`). -/
def classify (jloads : String → Option PyVal) : RawEvent → Except String (Option ClientEvent)
  | RawEvent.updates none => Except.ok none
  | RawEvent.updates (some v) => Except.ok (some (ClientEvent.interruptEv v))
  | RawEvent.messages (Chunk.toolMessage stopReason content name status) =>
    if stopReason = some "end_turn" then Except.ok (some ClientEvent.endTurn)
    else if content = "" then Except.ok none
    else
      Except.ok (some (ClientEvent.toolResult name
        (match jloads content with
         | some j => j
         | none => PyVal.vStr content)
        (status == "error")))
  | RawEvent.messages (Chunk.aiMessage stopReason items) =>
    if stopReason = some "end_turn" then Except.ok (some ClientEvent.endTurn)
    else
      match items with
      | [] => Except.ok none
      | ci :: _ =>
        match ci.type with
        | some "tool_use" =>
          match ci.name with
          | some n => if n = "" then Except.ok none else Except.ok (some (ClientEvent.toolStart n))
          | none => Except.ok none
        | some "text" => Except.ok (some (ClientEvent.textEv ci.text))
        | some "reasoning_content" =>
          match ci.reasoning_content with
          | some rc => Except.ok (some (ClientEvent.thinkingEv rc.text))
          | none => Except.error "AttributeError"
        | _ => Except.ok none

/-! ## Helper lemmas -/

/-- Two key-sorted entry lists that are permutations of each other and have
duplicate-free keys are equal (key order plus unique keys pin the entry
positions down). -/
theorem sorted_nodupkeys_perm_eq (l₁ : List (String × PyVal)) :
    ∀ l₂ : List (String × PyVal), l₁.Perm l₂ →
      l₁.Sorted ctxKeyLe → l₂.Sorted ctxKeyLe →
      (l₁.map Prod.fst).Nodup → l₁ = l₂ := by
  induction l₁ with
  | nil =>
    intro l₂ hp _ _ _
    exact hp.nil_eq
  | cons p t ih =>
    intro l₂ hp hs₁ hs₂ hnd
    cases l₂ with
    | nil => exact absurd hp.eq_nil (List.cons_ne_nil p t)
    | cons q u =>
      have hpq : p = q := by
        have hpin : p ∈ q :: u := hp.mem_iff.mp (List.mem_cons_self p t)
        have hqin : q ∈ p :: t := hp.symm.mem_iff.mp (List.mem_cons_self q u)
        rcases List.mem_cons.mp hpin with h | h
        · exact h
        rcases List.mem_cons.mp hqin with h' | h'
        · exact h'.symm
        have h1 : strLe p.1 q.1 := (List.sorted_cons.mp hs₁).1 q h'
        have h2 : strLe q.1 p.1 := (List.sorted_cons.mp hs₂).1 p h
        have hk : p.1 ∈ t.map Prod.fst := by
          rw [strLe_antisymm h1 h2]
          exact List.mem_map_of_mem Prod.fst h'
        exact absurd hk (List.nodup_cons.mp hnd).1
      subst hpq
      have heq := ih u hp.cons_inv (List.sorted_cons.mp hs₁).2 (List.sorted_cons.mp hs₂).2
        (List.nodup_cons.mp hnd).2
      rw [heq]

/-- `canonicalEntries` is a per-entry map (key kept, value canonicalised). -/
theorem canonicalEntries_eq_map (l : List (String × PyVal)) :
    canonicalEntries l = l.map (fun p => (p.1, canonical p.2)) := by
  induction l with
  | nil => rfl
  | cons p t ih =>
    cases p
    simp [canonicalEntries, ih]

/-- `canonicalEntries` preserves the key list. -/
theorem canonicalEntries_keys (l : List (String × PyVal)) :
    (canonicalEntries l).map Prod.fst = l.map Prod.fst := by
  rw [canonicalEntries_eq_map, List.map_map]
  rfl

/-- Context tokens are insensitive to entry order: permutation-equal mappings
with duplicate-free keys hash identically. -/
theorem get_context_hash_perm (ctx ctx' : Ctx) (hperm : ctx.Perm ctx')
    (hnd : (ctx.map Prod.fst).Nodup) :
    get_context_hash (some ctx) = get_context_hash (some ctx') := by
  show Token.md5Json (List.insertionSort ctxKeyLe (canonicalEntries ctx)) =
    Token.md5Json (List.insertionSort ctxKeyLe (canonicalEntries ctx'))
  have hperm' : (canonicalEntries ctx).Perm (canonicalEntries ctx') := by
    rw [canonicalEntries_eq_map, canonicalEntries_eq_map]
    exact hperm.map _
  have hndc : ((canonicalEntries ctx).map Prod.fst).Nodup := by
    rw [canonicalEntries_keys]; exact hnd
  have hsortperm :
      (List.insertionSort ctxKeyLe (canonicalEntries ctx)).Perm
        (List.insertionSort ctxKeyLe (canonicalEntries ctx')) :=
    (List.perm_insertionSort _ _).trans (hperm'.trans (List.perm_insertionSort _ _).symm)
  have hndsort :
      ((List.insertionSort ctxKeyLe (canonicalEntries ctx)).map Prod.fst).Nodup :=
    (((List.perm_insertionSort ctxKeyLe (canonicalEntries ctx)).map Prod.fst).nodup_iff).mpr hndc
  have := sorted_nodupkeys_perm_eq _ _ hsortperm
    (List.sorted_insertionSort ctxKeyLe (canonicalEntries ctx))
    (List.sorted_insertionSort ctxKeyLe (canonicalEntries ctx')) hndsort
  rw [this]

/-! ## Claim theorems -/

/-- C8 counterexample: the claim says an empty context mapping gets the
`"no_context"` sentinel, but `get_context_hash` only tests `context is None`;
a present-but-empty mapping is hashed (md5 of the serialized empty object),
which is not the sentinel. -/
theorem C8_claim_counterexample :
    get_context_hash (some ([] : Ctx)) ≠ Token.noContext := by
  decide

/-- C8 (amended): an absent (`None`) context yields the sentinel
`"no_context"`; any present mapping — including the empty one — is hashed as
its serialization with sorted keys; mappings equal as key-value sets (with
unique keys) receive the same token regardless of construction order. -/
theorem C8_context_token :
    get_context_hash none = Token.noContext ∧
    (∀ ctx : Ctx, get_context_hash (some ctx) =
      Token.md5Json (List.insertionSort ctxKeyLe (canonicalEntries ctx))) ∧
    (∀ ctx ctx' : Ctx, ctx.Perm ctx' → (ctx.map Prod.fst).Nodup →
      get_context_hash (some ctx) = get_context_hash (some ctx')) := by
  refine ⟨rfl, fun ctx => rfl, ?_⟩
  exact fun ctx ctx' hperm hnd => get_context_hash_perm ctx ctx' hperm hnd

/-- C8 witness: two concrete two-entry mappings in opposite construction order
receive the same token. -/
theorem C8_context_token_witness :
    get_context_hash (some [("b", PyVal.vInt 1), ("a", PyVal.vInt 2)]) =
      get_context_hash (some [("a", PyVal.vInt 2), ("b", PyVal.vInt 1)]) :=
  C8_context_token.2.2 [("b", PyVal.vInt 1), ("a", PyVal.vInt 2)]
    [("a", PyVal.vInt 2), ("b", PyVal.vInt 1)] (by decide) (by decide)

/-- Consuming a queue that starts with plain items yields those items in order
and then proceeds with the rest of the queue. -/
theorem consumeQueue_items {α ε : Type} (items : List α) (tail : List (QItem α ε)) :
    consumeQueue (items.map QItem.item ++ tail) =
      (items ++ (consumeQueue tail).1, (consumeQueue tail).2) := by
  induction items with
  | nil => simp
  | cons a items ih => simp [consumeQueue, ih]

/-- C3: the streaming bridge delivers a completing producer's items exactly, in
order, followed by end of stream with the worker joined (the consumer breaks on
the terminal done marker, which the worker pushes in its `finally` block, and
then awaits the worker's future); a failing producer's emitted prefix arrives
in order followed by a single re-raised error and nothing further. -/
theorem C3_streaming_bridge :
    (∀ (α ε : Type) (A B C : α),
      async_stream_generator (ε := ε) [A, B, C] none =
        ([A, B, C], StreamOutcome.endedJoined)) ∧
    (∀ (α ε : Type) (items : List α),
      async_stream_generator (ε := ε) items none = (items, StreamOutcome.endedJoined)) ∧
    (∀ (α ε : Type) (items : List α) (e : ε),
      async_stream_generator items (some e) = (items, StreamOutcome.raised e)) := by
  have hdone : ∀ (α ε : Type) (items : List α),
      async_stream_generator (ε := ε) items none = (items, StreamOutcome.endedJoined) := by
    intro α ε items
    have hq : producer_queue (ε := ε) items none = items.map QItem.item ++ [QItem.done] := by
      simp [producer_queue]
    unfold async_stream_generator
    rw [hq, consumeQueue_items]
    simp [consumeQueue]
  have hfail : ∀ (α ε : Type) (items : List α) (e : ε),
      async_stream_generator items (some e) = (items, StreamOutcome.raised e) := by
    intro α ε items e
    have hq : producer_queue items (some e) =
        items.map QItem.item ++ [QItem.failure e, QItem.done] := by
      simp [producer_queue]
    unfold async_stream_generator
    rw [hq, consumeQueue_items]
    simp [consumeQueue]
  exact ⟨fun α ε A B C => hdone α ε [A, B, C], hdone, hfail⟩

/-- The invalid-name accumulator of the selection loop collects exactly the
names that match no registry entry, exactly or case-insensitively. -/
theorem selectTools_invalid (m : List (String × Tool)) (ps : List String) :
    (selectTools m ps).2.2 =
      ps.filter (fun n => (lookupExact m n).isNone && (lookupCaseInsensitive m n).isNone) := by
  induction ps with
  | nil => rfl
  | cons n rest ih =>
    simp only [selectTools]
    cases he : lookupExact m n with
    | some t => simp [he, List.filter_cons, ih]
    | none =>
      cases hc : lookupCaseInsensitive m n with
      | some p => simp [he, hc, List.filter_cons, ih]
      | none => simp [he, hc, List.filter_cons, ih]

/-- The dedup loop keeps a subsequence of its input (order preserved). -/
theorem dedupGo_sublist (seen : List Nat) (ts : List Tool) :
    (dedupGo seen ts).Sublist ts := by
  induction ts generalizing seen with
  | nil => simp [dedupGo]
  | cons t ts ih =>
    simp only [dedupGo]
    split
    · exact (ih seen).trans (List.sublist_cons_self t ts)
    · exact (ih (t.tid :: seen)).cons₂ t

/-- The dedup loop's output has duplicate-free identities, none of them in
`seen`. -/
theorem dedupGo_nodup (seen : List Nat) (ts : List Tool) :
    ((dedupGo seen ts).map Tool.tid).Nodup ∧ ∀ t ∈ dedupGo seen ts, t.tid ∉ seen := by
  induction ts generalizing seen with
  | nil => simp [dedupGo]
  | cons t ts ih =>
    simp only [dedupGo]
    split
    · obtain ⟨h1, h2⟩ := ih seen
      exact ⟨h1, h2⟩
    · rename_i hmem
      obtain ⟨h1, h2⟩ := ih (t.tid :: seen)
      refine ⟨?_, ?_⟩
      · simp only [List.map_cons, List.nodup_cons]
        refine ⟨?_, h1⟩
        intro hin
        obtain ⟨u, hu, he⟩ := List.mem_map.mp hin
        have := h2 u hu
        simp [he] at this
      · intro u hu
        rcases List.mem_cons.mp hu with rfl | hu'
        · exact hmem
        · intro hin
          exact h2 u hu' (List.mem_cons_of_mem _ hin)

/-- Every identity in the input survives dedup (or was already seen). -/
theorem dedupGo_covers (seen : List Nat) (ts : List Tool) :
    ∀ t ∈ ts, t.tid ∈ seen ∨ t.tid ∈ (dedupGo seen ts).map Tool.tid := by
  induction ts generalizing seen with
  | nil => simp
  | cons a ts ih =>
    intro t ht
    rcases List.mem_cons.mp ht with rfl | ht'
    · by_cases h : t.tid ∈ seen
      · exact Or.inl h
      · right
        simp [dedupGo, h]
    · simp only [dedupGo]
      split
      · exact ih seen t ht'
      · rcases ih (a.tid :: seen) t ht' with h' | h'
        · rcases List.mem_cons.mp h' with he | hs
          · right
            simp [he]
          · exact Or.inl hs
        · right
          simp only [List.map_cons, List.mem_cons]
          exact Or.inr h'

/-- C5: tool resolution — exact name match first, else case-insensitive, with
unmatched names collected (never raising); zero resolved tools falls back to
the full registry; duplicates (by identity) removed preserving first-occurrence
order; an absent or empty preference list yields all tools; `["ADD_THREATS"]`
resolves to `add_threats` and `["not_a_real_tool"]` yields the full set. -/
theorem C5_tool_resolution :
    (get_tools_for_preferences none ALL_AVAILABLE_TOOLS TOOL_NAME_MAP = ALL_AVAILABLE_TOOLS) ∧
    (get_tools_for_preferences (some []) ALL_AVAILABLE_TOOLS TOOL_NAME_MAP =
      ALL_AVAILABLE_TOOLS) ∧
    (∀ m n rest t, lookupExact m n = some t →
      selectTools m (n :: rest) =
        (t :: (selectTools m rest).1, n :: (selectTools m rest).2.1,
          (selectTools m rest).2.2)) ∧
    (∀ m n rest p, lookupExact m n = none → lookupCaseInsensitive m n = some p →
      selectTools m (n :: rest) =
        (p.2 :: (selectTools m rest).1, p.1 :: (selectTools m rest).2.1,
          (selectTools m rest).2.2)) ∧
    (∀ m n rest, lookupExact m n = none → lookupCaseInsensitive m n = none →
      selectTools m (n :: rest) =
        ((selectTools m rest).1, (selectTools m rest).2.1,
          n :: (selectTools m rest).2.2)) ∧
    (∀ m ps, (selectTools m ps).2.2 =
      ps.filter (fun n => (lookupExact m n).isNone && (lookupCaseInsensitive m n).isNone)) ∧
    (∀ ps, (selectTools TOOL_NAME_MAP ps).1 = [] →
      get_tools_for_preferences (some ps) ALL_AVAILABLE_TOOLS TOOL_NAME_MAP =
        ALL_AVAILABLE_TOOLS) ∧
    (∀ ts : List Tool, (dedupGo [] ts).Sublist ts ∧
      ((dedupGo [] ts).map Tool.tid).Nodup ∧
      ∀ t ∈ ts, t.tid ∈ (dedupGo [] ts).map Tool.tid) ∧
    (get_tools_for_preferences (some ["ADD_THREATS"]) ALL_AVAILABLE_TOOLS TOOL_NAME_MAP =
      [add_threats]) ∧
    (get_tools_for_preferences (some ["add_threats", "ADD_THREATS"]) ALL_AVAILABLE_TOOLS
      TOOL_NAME_MAP = [add_threats]) ∧
    (get_tools_for_preferences (some ["not_a_real_tool"]) ALL_AVAILABLE_TOOLS TOOL_NAME_MAP =
      ALL_AVAILABLE_TOOLS) := by
  refine ⟨rfl, rfl, ?_, ?_, ?_, selectTools_invalid, ?_, ?_, by decide, by decide, by decide⟩
  · intro m n rest t he
    simp [selectTools, he]
  · intro m n rest p he hc
    simp [selectTools, he, hc]
  · intro m n rest he hc
    simp [selectTools, he, hc]
  · intro ps hsel
    cases ps with
    | nil => rfl
    | cons n rest => simp [get_tools_for_preferences, hsel]
  · intro ts
    refine ⟨dedupGo_sublist [] ts, (dedupGo_nodup [] ts).1, ?_⟩
    intro t ht
    rcases dedupGo_covers [] ts t ht with h | h
    · exact absurd h (List.not_mem_nil t.tid)
    · exact h

/-- C5 witness: the selection loop resolves the exact name `"add_threats"`
through the exact-match branch. -/
theorem C5_tool_resolution_witness :
    selectTools TOOL_NAME_MAP ["add_threats"] = ([add_threats], ["add_threats"], []) :=
  C5_tool_resolution.2.2.1 TOOL_NAME_MAP "add_threats" [] add_threats (by decide)

/-- C4: the event classifier — an end-of-turn chunk yields exactly the end
event; an empty-content chunk (not end-of-turn) yields nothing; a text item
yields a text event with its fragment; a reasoning item yields a thinking
event; a tool-use item with a truthy name yields a tool-start event; a
tool-result message yields a tool event with the tool name, JSON-parsed or raw
content, and an error flag equal to `status == "error"`, never aborting; an
updates item with an interrupt marker yields an interrupt event; unrecognized
shapes are suppressed. -/
theorem C4_event_classification :
    (∀ jl c n s, classify jl (RawEvent.messages (Chunk.toolMessage (some "end_turn") c n s)) =
      Except.ok (some ClientEvent.endTurn)) ∧
    (∀ jl items, classify jl (RawEvent.messages (Chunk.aiMessage (some "end_turn") items)) =
      Except.ok (some ClientEvent.endTurn)) ∧
    (∀ jl stop n s, stop ≠ some "end_turn" →
      classify jl (RawEvent.messages (Chunk.toolMessage stop "" n s)) = Except.ok none) ∧
    (∀ jl stop, stop ≠ some "end_turn" →
      classify jl (RawEvent.messages (Chunk.aiMessage stop [])) = Except.ok none) ∧
    (∀ jl stop txt nm rc rest, stop ≠ some "end_turn" →
      classify jl (RawEvent.messages (Chunk.aiMessage stop
        (⟨some "text", txt, nm, rc⟩ :: rest))) = Except.ok (some (ClientEvent.textEv txt))) ∧
    (∀ jl stop txt nm rc rest, stop ≠ some "end_turn" →
      classify jl (RawEvent.messages (Chunk.aiMessage stop
        (⟨some "reasoning_content", txt, nm, some rc⟩ :: rest))) =
        Except.ok (some (ClientEvent.thinkingEv rc.text))) ∧
    (∀ jl stop txt rc rest n, stop ≠ some "end_turn" → n ≠ "" →
      classify jl (RawEvent.messages (Chunk.aiMessage stop
        (⟨some "tool_use", txt, some n, rc⟩ :: rest))) =
        Except.ok (some (ClientEvent.toolStart n))) ∧
    (∀ jl stop c n s j, stop ≠ some "end_turn" → c ≠ "" → jl c = some j →
      classify jl (RawEvent.messages (Chunk.toolMessage stop c n s)) =
        Except.ok (some (ClientEvent.toolResult n j (s == "error")))) ∧
    (∀ jl stop c n s, stop ≠ some "end_turn" → c ≠ "" → jl c = none →
      classify jl (RawEvent.messages (Chunk.toolMessage stop c n s)) =
        Except.ok (some (ClientEvent.toolResult n (PyVal.vStr c) (s == "error")))) ∧
    (∀ jl v, classify jl (RawEvent.updates (some v)) =
      Except.ok (some (ClientEvent.interruptEv v))) ∧
    (∀ jl, classify jl (RawEvent.updates none) = Except.ok none) ∧
    (∀ jl stop ty txt nm rc rest, stop ≠ some "end_turn" →
      ty ≠ some "tool_use" → ty ≠ some "text" → ty ≠ some "reasoning_content" →
      classify jl (RawEvent.messages (Chunk.aiMessage stop
        (⟨ty, txt, nm, rc⟩ :: rest))) = Except.ok none) := by
  refine ⟨?_, ?_, ?_, ?_, ?_, ?_, ?_, ?_, ?_, ?_, ?_, ?_⟩
  · intro jl c n s
    simp [classify]
  · intro jl items
    simp [classify]
  · intro jl stop n s h
    simp [classify, h]
  · intro jl stop h
    simp [classify, h]
  · intro jl stop txt nm rc rest h
    simp [classify, h]
  · intro jl stop txt nm rc rest h
    simp [classify, h]
  · intro jl stop txt rc rest n h hn
    simp [classify, h, hn]
  · intro jl stop c n s j h hc hj
    simp [classify, h, hc, hj]
  · intro jl stop c n s h hc hj
    simp [classify, h, hc, hj]
  · intro jl v
    simp [classify]
  · intro jl
    simp [classify]
  · intro jl stop ty txt nm rc rest h h1 h2 h3
    simp only [classify]
    rw [if_neg h]

/-- C4 witness: a concrete text item classifies to a text event. -/
theorem C4_event_classification_witness :
    classify (fun _ => none)
      (RawEvent.messages (Chunk.aiMessage none [⟨some "text", some "hi", none, none⟩])) =
      Except.ok (some (ClientEvent.textEv (some "hi"))) :=
  C4_event_classification.2.2.2.2.1 (fun _ => none) none (some "hi") none none []
    (by decide)

/-- C7: reasoning-tier model configuration — tier 0 yields the bare
configuration with no thinking fields; tiers 1, 2, 3 attach budgets of 8000,
16000, 31999 tokens plus the interleaved-reasoning flag; every other tier gets
tier 1's 8000-token budget. -/
theorem C7_model_config_tiers :
    (create_model_config 0 = ⟨64000, MODEL_ID, none⟩) ∧
    (create_model_config 1 = ⟨64000, MODEL_ID, some ⟨8000, true⟩⟩) ∧
    (create_model_config 2 = ⟨64000, MODEL_ID, some ⟨16000, true⟩⟩) ∧
    (create_model_config 3 = ⟨64000, MODEL_ID, some ⟨31999, true⟩⟩) ∧
    (∀ b : Int, b ≠ 0 → b ≠ 1 → b ≠ 2 → b ≠ 3 →
      create_model_config b = ⟨64000, MODEL_ID, some ⟨8000, true⟩⟩) := by
  refine ⟨by decide, by decide, by decide, by decide, ?_⟩
  intro b h0 h1 h2 h3
  simp [create_model_config, budget_mapping_get, h0, h1, h2, h3]

/-- C7 witness: the out-of-range tier 9 receives tier 1's budget. -/
theorem C7_model_config_tiers_witness :
    create_model_config 9 = ⟨64000, MODEL_ID, some ⟨8000, true⟩⟩ :=
  C7_model_config_tiers.2.2.2.2 9 (by decide) (by decide) (by decide) (by decide)

/-- C10: `extract_budget_level` applies `int()` directly to
`input_data.get("budget_level")`, so a missing key (Python `None`) raises
`TypeError` and a non-numeric value raises `ValueError`; a successful result is
always an int (never `None`), so the `if budget_level is None` fallbacks in the
prepare and streaming paths are unreachable, and a request omitting the key
fails with an error instead of defaulting to the current tier. -/
theorem C10_budget_level_extraction :
    (∀ input, dict_find input "budget_level" = none →
      extract_budget_level input = Except.error "TypeError") ∧
    (∀ input bv, extract_budget_level input = Except.ok bv → ∃ n : Int, bv = PyVal.vInt n) ∧
    (extract_budget_level [("budget_level", PyVal.vStr "high")] =
      Except.error "ValueError") ∧
    (∀ fetch bOk input st, dict_find input "budget_level" = none →
      prepare_resolve fetch bOk input st = (Except.error (), st)) ∧
    (∀ fetch bOk input st, dict_find input "budget_level" = none → st.cached_agent = none →
      streaming_resolve fetch bOk input st = (Except.error (), st)) := by
  have hmiss : ∀ input, dict_find input "budget_level" = none →
      extract_budget_level input = Except.error "TypeError" := by
    intro input h
    simp [extract_budget_level, dict_get, h, pyIntCoe, Except.map]
  refine ⟨hmiss, ?_, by decide, ?_, ?_⟩
  · intro input bv h
    unfold extract_budget_level at h
    cases hp : pyIntCoe (dict_get input "budget_level") with
    | ok n =>
      rw [hp] at h
      simp [Except.map] at h
      exact ⟨n, h.symm⟩
    | error e =>
      rw [hp] at h
      simp [Except.map] at h
  · intro fetch bOk input st h
    simp [prepare_resolve, hmiss input h]
  · intro fetch bOk input st h hc
    simp [streaming_resolve, hc, hmiss input h]

/-- The `needs_update` condition of utils.get_or_create_agent evaluated on a
state's fields, together with the tier comparison the wrapper adds: some facet
of the request differs from the cached facets, or no runtime is cached. -/
def facetMismatch (p : Option (List String)) (c : Option Ctx) (d : Option String)
    (t : Int) (st : AgentState) : Prop :=
  st.cached_agent = none ∨
  st.current_tool_preferences ≠ p ∨
  st.current_tools_hash ≠
    some (get_tools_hash (get_tools_for_preferences p ALL_AVAILABLE_TOOLS TOOL_NAME_MAP)) ∨
  st.current_context_hash ≠ some (get_context_hash c) ∨
  st.current_diagram_hash ≠ some (get_diagram_hash d) ∨
  st.current_budget_level ≠ t

instance (p : Option (List String)) (c : Option Ctx) (d : Option String) (t : Int)
    (st : AgentState) : Decidable (facetMismatch p c d t st) := by
  unfold facetMismatch
  infer_instance

/-- The post-rebuild global state: fresh runtime instance, the request's facet
values and their fresh fingerprint tokens, the resolved diagram data, the
possibly-extended diagram cache, and a bumped builder counter. -/
def rebuilt_state (fetch : String → Option FetchResp) (p : Option (List String))
    (c : Option Ctx) (d : Option String) (t : Int) (st : AgentState) : AgentState :=
  ⟨some st.next_agent_id, p,
   some (get_tools_hash (get_tools_for_preferences p ALL_AVAILABLE_TOOLS TOOL_NAME_MAP)),
   some (get_context_hash c), some (get_diagram_hash d),
   (resolve_diagram_data fetch d st.diagram_cache).1, c, t,
   (resolve_diagram_data fetch d st.diagram_cache).2, st.next_agent_id + 1⟩

/-- Rebuild branch of get_or_create_agent with a succeeding builder. -/
theorem goca_build (fetch : String → Option FetchResp) {p : Option (List String)}
    {c : Option Ctx} {d : Option String} {cp : Option (List String)}
    {cth cch cdh : Option Token} {ca : Option Nat} {cc : Option Ctx} {dc : DCache} {nid : Nat}
    (h : cp ≠ p ∨
      cth ≠ some (get_tools_hash (get_tools_for_preferences p ALL_AVAILABLE_TOOLS TOOL_NAME_MAP)) ∨
      cch ≠ some (get_context_hash c) ∨ cdh ≠ some (get_diagram_hash d) ∨ ca = none) :
    get_or_create_agent fetch true p c d ALL_AVAILABLE_TOOLS TOOL_NAME_MAP
      cp cth cch cdh ca cc dc nid =
      (Except.ok (some nid, p,
        some (get_tools_hash (get_tools_for_preferences p ALL_AVAILABLE_TOOLS TOOL_NAME_MAP)),
        some (get_context_hash c), some (get_diagram_hash d),
        (resolve_diagram_data fetch d dc).1, c), (resolve_diagram_data fetch d dc).2,
        nid + 1) := by
  unfold get_or_create_agent
  rw [if_pos h]
  rfl

/-- Rebuild branch of get_or_create_agent with a failing builder: the
exception propagates; only the diagram cache may have been written. -/
theorem goca_fail (fetch : String → Option FetchResp) {p : Option (List String)}
    {c : Option Ctx} {d : Option String} {cp : Option (List String)}
    {cth cch cdh : Option Token} {ca : Option Nat} {cc : Option Ctx} {dc : DCache} {nid : Nat}
    (h : cp ≠ p ∨
      cth ≠ some (get_tools_hash (get_tools_for_preferences p ALL_AVAILABLE_TOOLS TOOL_NAME_MAP)) ∨
      cch ≠ some (get_context_hash c) ∨ cdh ≠ some (get_diagram_hash d) ∨ ca = none) :
    get_or_create_agent fetch false p c d ALL_AVAILABLE_TOOLS TOOL_NAME_MAP
      cp cth cch cdh ca cc dc nid =
      (Except.error (), (resolve_diagram_data fetch d dc).2, nid) := by
  unfold get_or_create_agent
  rw [if_pos h]
  rfl

/-- Reuse branch of get_or_create_agent: everything cached is returned
unchanged, the diagram data re-read from the cache. -/
theorem goca_reuse {fetch : String → Option FetchResp} {bOk : Bool}
    {p : Option (List String)} {c : Option Ctx} {d : Option String}
    {cp : Option (List String)} {cth cch cdh : Option Token} {ca : Option Nat}
    {cc : Option Ctx} {dc : DCache} {nid : Nat}
    (h : ¬(cp ≠ p ∨
      cth ≠ some (get_tools_hash (get_tools_for_preferences p ALL_AVAILABLE_TOOLS TOOL_NAME_MAP)) ∨
      cch ≠ some (get_context_hash c) ∨ cdh ≠ some (get_diagram_hash d) ∨ ca = none)) :
    get_or_create_agent fetch bOk p c d ALL_AVAILABLE_TOOLS TOOL_NAME_MAP
      cp cth cch cdh ca cc dc nid =
      (Except.ok (ca, cp, cth, cch, cdh, cached_diagram_lookup d dc, cc), dc, nid) := by
  unfold get_or_create_agent
  rw [if_neg h]

/-- A facet mismatch (or empty cache slot) with a succeeding builder: exactly
one rebuild, and the globals afterwards hold the new facet values. -/
theorem gawp_build (fetch : String → Option FetchResp) (p : Option (List String))
    (c : Option Ctx) (d : Option String) (t : Int) (st : AgentState)
    (H : facetMismatch p c d t st) :
    get_agent_with_preferences fetch true p c d t st =
      (Except.ok (some st.next_agent_id), rebuilt_state fetch p c d t st) := by
  by_cases ht : st.current_budget_level = t
  · have hb : budget_adjust t st = st := by simp [budget_adjust, ht]
    have hd : st.current_tool_preferences ≠ p ∨
        st.current_tools_hash ≠
          some (get_tools_hash (get_tools_for_preferences p ALL_AVAILABLE_TOOLS TOOL_NAME_MAP)) ∨
        st.current_context_hash ≠ some (get_context_hash c) ∨
        st.current_diagram_hash ≠ some (get_diagram_hash d) ∨
        st.cached_agent = none := by
      rcases H with h | h | h | h | h | h
      · exact Or.inr (Or.inr (Or.inr (Or.inr h)))
      · exact Or.inl h
      · exact Or.inr (Or.inl h)
      · exact Or.inr (Or.inr (Or.inl h))
      · exact Or.inr (Or.inr (Or.inr (Or.inl h)))
      · exact absurd ht h
    unfold get_agent_with_preferences
    rw [hb, goca_build fetch hd]
    simp [rebuilt_state, ht]
  · have hb : budget_adjust t st =
        { st with current_budget_level := t, cached_agent := none } := by
      simp [budget_adjust, ht]
    unfold get_agent_with_preferences
    rw [hb, goca_build fetch (Or.inr (Or.inr (Or.inr (Or.inr rfl))))]
    simp [rebuilt_state]

/-- A facet mismatch with a failing builder and an unchanged tier: the failure
propagates and no global except the diagram cache changes. -/
theorem gawp_fail_same_tier (fetch : String → Option FetchResp) (p : Option (List String))
    (c : Option Ctx) (d : Option String) (t : Int) (st : AgentState)
    (ht : st.current_budget_level = t)
    (hd : st.current_tool_preferences ≠ p ∨
      st.current_tools_hash ≠
        some (get_tools_hash (get_tools_for_preferences p ALL_AVAILABLE_TOOLS TOOL_NAME_MAP)) ∨
      st.current_context_hash ≠ some (get_context_hash c) ∨
      st.current_diagram_hash ≠ some (get_diagram_hash d) ∨
      st.cached_agent = none) :
    get_agent_with_preferences fetch false p c d t st =
      (Except.error (),
        { st with diagram_cache := (resolve_diagram_data fetch d st.diagram_cache).2 }) := by
  have hb : budget_adjust t st = st := by simp [budget_adjust, ht]
  unfold get_agent_with_preferences
  rw [hb, goca_fail fetch hd]

/-- A tier change with a failing builder: the failure propagates, but the
pre-step has already cleared the runtime slot and written the new tier. -/
theorem gawp_fail_tier_change (fetch : String → Option FetchResp) (p : Option (List String))
    (c : Option Ctx) (d : Option String) (t : Int) (st : AgentState)
    (ht : st.current_budget_level ≠ t) :
    get_agent_with_preferences fetch false p c d t st =
      (Except.error (),
        { st with
          cached_agent := none
          current_budget_level := t
          diagram_cache := (resolve_diagram_data fetch d st.diagram_cache).2 }) := by
  have hb : budget_adjust t st =
      { st with current_budget_level := t, cached_agent := none } := by
    simp [budget_adjust, ht]
  unfold get_agent_with_preferences
  rw [hb, goca_fail fetch (Or.inr (Or.inr (Or.inr (Or.inr rfl))))]

/-- No facet mismatch and a cached runtime: the cached instance is returned,
no builder call happens, and only `current_diagram_data` is recomputed. -/
theorem gawp_reuse (fetch : String → Option FetchResp) (bOk : Bool)
    (p : Option (List String)) (c : Option Ctx) (d : Option String) (t : Int)
    (st : AgentState) (a : Nat) (ha : st.cached_agent = some a)
    (h1 : st.current_tool_preferences = p)
    (h2 : st.current_tools_hash =
      some (get_tools_hash (get_tools_for_preferences p ALL_AVAILABLE_TOOLS TOOL_NAME_MAP)))
    (h3 : st.current_context_hash = some (get_context_hash c))
    (h4 : st.current_diagram_hash = some (get_diagram_hash d))
    (h5 : st.current_budget_level = t) :
    get_agent_with_preferences fetch bOk p c d t st =
      (Except.ok (some a),
        { st with current_diagram_data := cached_diagram_lookup d st.diagram_cache }) := by
  have hb : budget_adjust t st = st := by simp [budget_adjust, h5]
  have hno : ¬(st.current_tool_preferences ≠ p ∨
      st.current_tools_hash ≠
        some (get_tools_hash (get_tools_for_preferences p ALL_AVAILABLE_TOOLS TOOL_NAME_MAP)) ∨
      st.current_context_hash ≠ some (get_context_hash c) ∨
      st.current_diagram_hash ≠ some (get_diagram_hash d) ∨
      st.cached_agent = none) := by
    simp [h1, h2, h3, h4, ha]
  unfold get_agent_with_preferences
  rw [hb, goca_reuse hno]
  simp [ha]

/-- Every successful resolution leaves globals whose cached runtime is the
returned one and whose stored facets are the request's facets. -/
theorem gawp_post_ok (fetch : String → Option FetchResp) (bOk : Bool)
    (p : Option (List String)) (c : Option Ctx) (d : Option String) (t : Int)
    (st : AgentState) (a : Option Nat) (st' : AgentState)
    (h : get_agent_with_preferences fetch bOk p c d t st = (Except.ok a, st')) :
    st'.cached_agent = a ∧ (∃ x, a = some x) ∧
    st'.current_tool_preferences = p ∧
    st'.current_tools_hash =
      some (get_tools_hash (get_tools_for_preferences p ALL_AVAILABLE_TOOLS TOOL_NAME_MAP)) ∧
    st'.current_context_hash = some (get_context_hash c) ∧
    st'.current_diagram_hash = some (get_diagram_hash d) ∧
    st'.current_budget_level = t := by
  by_cases H : facetMismatch p c d t st
  · cases bOk with
    | true =>
      rw [gawp_build fetch p c d t st H] at h
      injection h with h1 h2
      injection h1 with h1
      subst h2
      exact ⟨h1, ⟨st.next_agent_id, h1.symm⟩, rfl, rfl, rfl, rfl, rfl⟩
    | false =>
      by_cases ht : st.current_budget_level = t
      · have hd : st.current_tool_preferences ≠ p ∨
            st.current_tools_hash ≠
              some (get_tools_hash
                (get_tools_for_preferences p ALL_AVAILABLE_TOOLS TOOL_NAME_MAP)) ∨
            st.current_context_hash ≠ some (get_context_hash c) ∨
            st.current_diagram_hash ≠ some (get_diagram_hash d) ∨
            st.cached_agent = none := by
          rcases H with h' | h' | h' | h' | h' | h'
          · exact Or.inr (Or.inr (Or.inr (Or.inr h')))
          · exact Or.inl h'
          · exact Or.inr (Or.inl h')
          · exact Or.inr (Or.inr (Or.inl h'))
          · exact Or.inr (Or.inr (Or.inr (Or.inl h')))
          · exact absurd ht h'
        rw [gawp_fail_same_tier fetch p c d t st ht hd] at h
        exact absurd h (by simp)
      · rw [gawp_fail_tier_change fetch p c d t st ht] at h
        exact absurd h (by simp)
  · unfold facetMismatch at H
    push_neg at H
    obtain ⟨hca, h1, h2, h3, h4, h5⟩ := H
    obtain ⟨x, hx⟩ := Option.ne_none_iff_exists'.mp hca
    rw [gawp_reuse fetch bOk p c d t st x hx h1 h2 h3 h4 h5] at h
    injection h with ha hb
    injection ha with ha
    subst hb
    exact ⟨hx.trans ha, ⟨x, ha.symm⟩, h1, h2, h3, h4, h5⟩

/-- The module-initial globals of agent.py (`cached_agent = None`,
`current_budget_level = 0`, empty diagram cache). -/
def initialState : AgentState := ⟨none, none, none, none, none, none, none, 0, [], 0⟩

/-- The globals after the lifespan startup call
`get_agent_with_preferences(None, None, None, 1)`. -/
def warmState : AgentState :=
  (get_agent_with_preferences (fun _ => none) true none none none 1 initialState).2

/-- C1: the Runtime Builder (`create_react_agent`, counted by `next_agent_id`)
runs if and only if no runtime is cached or some facet differs from the cached
facets (tool-preference list, tools/context/diagram fingerprint tokens,
reasoning tier); a second resolution with identical facets returns the same
runtime instance with no builder call; any mismatch triggers exactly one
rebuild, after which the cache entry holds the new facet values. -/
theorem C1_runtime_cache_resolution :
    (∀ fetch fetch' bOk bOk' p c d t st a st1,
      get_agent_with_preferences fetch bOk p c d t st = (Except.ok a, st1) →
      ∃ x st2, a = some x ∧
        get_agent_with_preferences fetch' bOk' p c d t st1 = (Except.ok (some x), st2) ∧
        st2.cached_agent = some x ∧ st2.next_agent_id = st1.next_agent_id) ∧
    (∀ fetch p c d t st,
      (get_agent_with_preferences fetch true p c d t st).2.next_agent_id ≠
          st.next_agent_id ↔
        facetMismatch p c d t st) ∧
    (∀ fetch p c d t st, facetMismatch p c d t st →
      ∃ st', get_agent_with_preferences fetch true p c d t st =
          (Except.ok (some st.next_agent_id), st') ∧
        st'.next_agent_id = st.next_agent_id + 1 ∧
        st'.cached_agent = some st.next_agent_id ∧
        st'.current_tool_preferences = p ∧
        st'.current_tools_hash =
          some (get_tools_hash
            (get_tools_for_preferences p ALL_AVAILABLE_TOOLS TOOL_NAME_MAP)) ∧
        st'.current_context_hash = some (get_context_hash c) ∧
        st'.current_diagram_hash = some (get_diagram_hash d) ∧
        st'.current_context = c ∧
        st'.current_budget_level = t) := by
  refine ⟨?_, ?_, ?_⟩
  · intro fetch fetch' bOk bOk' p c d t st a st1 h
    obtain ⟨hca, ⟨x, hax⟩, h1, h2, h3, h4, h5⟩ :=
      gawp_post_ok fetch bOk p c d t st a st1 h
    refine ⟨x, { st1 with
      current_diagram_data := cached_diagram_lookup d st1.diagram_cache }, hax, ?_, ?_, rfl⟩
    · exact gawp_reuse fetch' bOk' p c d t st1 x (hax ▸ hca) h1 h2 h3 h4 h5
    · exact hax ▸ hca
  · intro fetch p c d t st
    by_cases H : facetMismatch p c d t st
    · constructor
      · intro _
        exact H
      · intro _
        rw [gawp_build fetch p c d t st H]
        simp [rebuilt_state]
    · constructor
      · intro hne
        exfalso
        have H' := H
        unfold facetMismatch at H'
        push_neg at H'
        obtain ⟨hca, h1, h2, h3, h4, h5⟩ := H'
        obtain ⟨x, hx⟩ := Option.ne_none_iff_exists'.mp hca
        rw [gawp_reuse fetch true p c d t st x hx h1 h2 h3 h4 h5] at hne
        exact hne rfl
      · intro h
        exact absurd h H
  · intro fetch p c d t st H
    exact ⟨rebuilt_state fetch p c d t st, gawp_build fetch p c d t st H,
      rfl, rfl, rfl, rfl, rfl, rfl, rfl, rfl⟩

/-- C1 witness: a cold start (empty slot) triggers exactly one build, and the
cache entry afterwards holds the requested facet values. -/
theorem C1_runtime_cache_resolution_witness :
    ∃ st', get_agent_with_preferences (fun _ => none) true none none none 1 initialState =
        (Except.ok (some initialState.next_agent_id), st') ∧
      st'.next_agent_id = initialState.next_agent_id + 1 ∧
      st'.cached_agent = some initialState.next_agent_id ∧
      st'.current_tool_preferences = none ∧
      st'.current_tools_hash =
        some (get_tools_hash
          (get_tools_for_preferences none ALL_AVAILABLE_TOOLS TOOL_NAME_MAP)) ∧
      st'.current_context_hash = some (get_context_hash none) ∧
      st'.current_diagram_hash = some (get_diagram_hash none) ∧
      st'.current_context = none ∧
      st'.current_budget_level = 1 :=
  C1_runtime_cache_resolution.2.2 (fun _ => none) none none none 1 initialState
    (Or.inl rfl)

/-- C2 counterexample: the claim says a failing rebuild leaves the cached
runtime and tier untouched even when triggered by a reasoning-tier change, but
the budget pre-step clears the runtime slot and writes the new tier before the
builder runs, so after a tier-2 rebuild failure on a warmed-up tier-1 state the
previously cached runtime is gone and the tier already updated. -/
theorem C2_claim_counterexample :
    warmState.cached_agent = some 0 ∧
    warmState.current_budget_level = 1 ∧
    (get_agent_with_preferences (fun _ => none) false none none none 2 warmState).1 =
      Except.error () ∧
    (get_agent_with_preferences (fun _ => none) false none none none 2
      warmState).2.cached_agent = none ∧
    (get_agent_with_preferences (fun _ => none) false none none none 2
      warmState).2.current_budget_level = 2 := by
  decide

/-- C2 (amended): a failing rebuild propagates the failure and performs no
partial update of the cached state — runtime slot, fingerprint tokens, facet
values, diagram data, tier — provided the rebuild was facet-triggered (tier
unchanged; only the artifact cache may gain entries).  When the rebuild was
triggered by a reasoning-tier change, the failure still propagates and the
fingerprint tokens, facet values and diagram data remain, but the runtime slot
has already been cleared and the tier updated by the pre-step. -/
theorem C2_build_failure_isolation :
    (∀ fetch p c d t st, st.current_budget_level = t →
      (st.current_tool_preferences ≠ p ∨
        st.current_tools_hash ≠
          some (get_tools_hash
            (get_tools_for_preferences p ALL_AVAILABLE_TOOLS TOOL_NAME_MAP)) ∨
        st.current_context_hash ≠ some (get_context_hash c) ∨
        st.current_diagram_hash ≠ some (get_diagram_hash d) ∨
        st.cached_agent = none) →
      (get_agent_with_preferences fetch false p c d t st).1 = Except.error () ∧
      (get_agent_with_preferences fetch false p c d t st).2.cached_agent =
        st.cached_agent ∧
      (get_agent_with_preferences fetch false p c d t st).2.current_tool_preferences =
        st.current_tool_preferences ∧
      (get_agent_with_preferences fetch false p c d t st).2.current_tools_hash =
        st.current_tools_hash ∧
      (get_agent_with_preferences fetch false p c d t st).2.current_context_hash =
        st.current_context_hash ∧
      (get_agent_with_preferences fetch false p c d t st).2.current_diagram_hash =
        st.current_diagram_hash ∧
      (get_agent_with_preferences fetch false p c d t st).2.current_diagram_data =
        st.current_diagram_data ∧
      (get_agent_with_preferences fetch false p c d t st).2.current_context =
        st.current_context ∧
      (get_agent_with_preferences fetch false p c d t st).2.current_budget_level =
        st.current_budget_level) ∧
    (∀ fetch p c d t st, st.current_budget_level ≠ t →
      (get_agent_with_preferences fetch false p c d t st).1 = Except.error () ∧
      (get_agent_with_preferences fetch false p c d t st).2.cached_agent = none ∧
      (get_agent_with_preferences fetch false p c d t st).2.current_budget_level = t ∧
      (get_agent_with_preferences fetch false p c d t st).2.current_tool_preferences =
        st.current_tool_preferences ∧
      (get_agent_with_preferences fetch false p c d t st).2.current_tools_hash =
        st.current_tools_hash ∧
      (get_agent_with_preferences fetch false p c d t st).2.current_context_hash =
        st.current_context_hash ∧
      (get_agent_with_preferences fetch false p c d t st).2.current_diagram_hash =
        st.current_diagram_hash ∧
      (get_agent_with_preferences fetch false p c d t st).2.current_diagram_data =
        st.current_diagram_data ∧
      (get_agent_with_preferences fetch false p c d t st).2.current_context =
        st.current_context ∧
      (get_agent_with_preferences fetch false p c d t st).2.next_agent_id =
        st.next_agent_id) := by
  constructor
  · intro fetch p c d t st ht hd
    rw [gawp_fail_same_tier fetch p c d t st ht hd]
    exact ⟨rfl, rfl, rfl, rfl, rfl, rfl, rfl, rfl, rfl⟩
  · intro fetch p c d t st ht
    rw [gawp_fail_tier_change fetch p c d t st ht]
    exact ⟨rfl, rfl, rfl, rfl, rfl, rfl, rfl, rfl, rfl, rfl⟩

/-- C2 witness: a facet-triggered rebuild failure on the warmed-up state fails
without touching the cached runtime. -/
theorem C2_build_failure_isolation_witness :
    (get_agent_with_preferences (fun _ => none) false (some ["add_threats"]) none none 1
      warmState).1 = Except.error () ∧
    (get_agent_with_preferences (fun _ => none) false (some ["add_threats"]) none none 1
      warmState).2.cached_agent = warmState.cached_agent ∧
    (get_agent_with_preferences (fun _ => none) false (some ["add_threats"]) none none 1
      warmState).2.current_tool_preferences = warmState.current_tool_preferences ∧
    (get_agent_with_preferences (fun _ => none) false (some ["add_threats"]) none none 1
      warmState).2.current_tools_hash = warmState.current_tools_hash ∧
    (get_agent_with_preferences (fun _ => none) false (some ["add_threats"]) none none 1
      warmState).2.current_context_hash = warmState.current_context_hash ∧
    (get_agent_with_preferences (fun _ => none) false (some ["add_threats"]) none none 1
      warmState).2.current_diagram_hash = warmState.current_diagram_hash ∧
    (get_agent_with_preferences (fun _ => none) false (some ["add_threats"]) none none 1
      warmState).2.current_diagram_data = warmState.current_diagram_data ∧
    (get_agent_with_preferences (fun _ => none) false (some ["add_threats"]) none none 1
      warmState).2.current_context = warmState.current_context ∧
    (get_agent_with_preferences (fun _ => none) false (some ["add_threats"]) none none 1
      warmState).2.current_budget_level = warmState.current_budget_level :=
  C2_build_failure_isolation.1 (fun _ => none) (some ["add_threats"]) none none 1
    warmState (by decide) (Or.inl (by decide))

/-- C9: while a runtime is cached, a streaming request never consults its body
(tool preferences, context, diagram, budget level are ignored), uses the cached
runtime, cached diagram data and current budget level unchanged, and leaves
every global — cache slot and fingerprint state — exactly as it was. -/
theorem C9_streaming_cached_frame :
    ∀ fetch fetch' bOk bOk' input input' st a, st.cached_agent = some a →
      streaming_resolve fetch bOk input st =
        (Except.ok (some a, st.current_diagram_data.map (fun dd => dd.url)), st) ∧
      streaming_resolve fetch bOk input st = streaming_resolve fetch' bOk' input' st := by
  intro fetch fetch' bOk bOk' input input' st a ha
  have h1 : streaming_resolve fetch bOk input st =
      (Except.ok (some a, st.current_diagram_data.map (fun dd => dd.url)), st) := by
    unfold streaming_resolve
    rw [ha]
  have h2 : streaming_resolve fetch' bOk' input' st =
      (Except.ok (some a, st.current_diagram_data.map (fun dd => dd.url)), st) := by
    unfold streaming_resolve
    rw [ha]
  exact ⟨h1, h1.trans h2.symm⟩

/-- C9 witness: on the warmed-up state two entirely different streaming
requests resolve identically and leave the state untouched. -/
theorem C9_streaming_cached_frame_witness :
    streaming_resolve (fun _ => none) true [("prompt", PyVal.vStr "hi")] warmState =
      (Except.ok (some 0, warmState.current_diagram_data.map (fun dd => dd.url)),
        warmState) ∧
    streaming_resolve (fun _ => none) true [("prompt", PyVal.vStr "hi")] warmState =
      streaming_resolve (fun _ => some ⟨none, "X"⟩) false
        [("diagram", PyVal.vStr "d.png"), ("budget_level", PyVal.vInt 3)] warmState :=
  C9_streaming_cached_frame (fun _ => none) (fun _ => some ⟨none, "X"⟩) true false
    [("prompt", PyVal.vStr "hi")]
    [("diagram", PyVal.vStr "d.png"), ("budget_level", PyVal.vInt 3)] warmState 0
    (by decide)

/-- C6: the artifact cache — a cached reference is returned without any fetch
(two resolutions of one reference make exactly one fetch); a failed or
empty-payload fetch yields null, caches nothing, and the next resolution
re-attempts; a successful fetch is stored under the hash of the reference; and
distinct references have distinct cache keys. -/
theorem C6_artifact_cache :
    (∀ fetch bucket p cache art, bucket ≠ "" → p ≠ "" →
      dcache_find cache (get_diagram_hash (some p)) = some art →
      download_and_cache_diagram fetch bucket p cache = (some art, cache, 0)) ∧
    (∀ fetch bucket p cache resp, bucket ≠ "" → p ≠ "" →
      dcache_find cache (get_diagram_hash (some p)) = none →
      fetch p = some resp → resp.body ≠ "" →
      ∃ art, download_and_cache_diagram fetch bucket p cache =
          (some art, (get_diagram_hash (some p), art) :: cache, 1) ∧
        download_and_cache_diagram fetch bucket p
            ((get_diagram_hash (some p), art) :: cache) =
          (some art, (get_diagram_hash (some p), art) :: cache, 0)) ∧
    (∀ fetch bucket p cache, bucket ≠ "" → p ≠ "" →
      dcache_find cache (get_diagram_hash (some p)) = none → fetch p = none →
      download_and_cache_diagram fetch bucket p cache = (none, cache, 1)) ∧
    (∀ fetch bucket p cache resp, bucket ≠ "" → p ≠ "" →
      dcache_find cache (get_diagram_hash (some p)) = none →
      fetch p = some resp → resp.body = "" →
      download_and_cache_diagram fetch bucket p cache = (none, cache, 1)) ∧
    (∀ p q : String, p ≠ q →
      get_diagram_hash (some p) ≠ get_diagram_hash (some q)) := by
  refine ⟨?_, ?_, ?_, ?_, ?_⟩
  · intro fetch bucket p cache art hb hp hhit
    unfold download_and_cache_diagram
    rw [if_neg hb, if_neg hp, hhit]
  · intro fetch bucket p cache resp hb hp hmiss hf hbody
    refine ⟨mkCachedArtifact resp p, ?_, ?_⟩
    · unfold download_and_cache_diagram
      rw [if_neg hb, if_neg hp, hmiss, hf]
      simp [hbody]
    · unfold download_and_cache_diagram
      rw [if_neg hb, if_neg hp]
      have hfind : dcache_find
          ((get_diagram_hash (some p), mkCachedArtifact resp p) :: cache)
          (get_diagram_hash (some p)) = some (mkCachedArtifact resp p) := by
        simp [dcache_find]
      rw [hfind]
  · intro fetch bucket p cache hb hp hmiss hf
    unfold download_and_cache_diagram
    rw [if_neg hb, if_neg hp, hmiss, hf]
  · intro fetch bucket p cache resp hb hp hmiss hf hbody
    unfold download_and_cache_diagram
    rw [if_neg hb, if_neg hp, hmiss, hf]
    simp [hbody]
  · intro p q hpq
    simp [get_diagram_hash, hpq]

/-- C6 witness: a concrete miss-then-hit pair performs exactly one fetch. -/
theorem C6_artifact_cache_witness :
    ∃ art, download_and_cache_diagram
        (fun p => if p = "d.png" then some ⟨some "image/png", "BYTES"⟩ else none)
        S3_BUCKET "d.png" [] =
        (some art, (get_diagram_hash (some "d.png"), art) :: [], 1) ∧
      download_and_cache_diagram
        (fun p => if p = "d.png" then some ⟨some "image/png", "BYTES"⟩ else none)
        S3_BUCKET "d.png" ((get_diagram_hash (some "d.png"), art) :: []) =
        (some art, (get_diagram_hash (some "d.png"), art) :: [], 0) :=
  C6_artifact_cache.2.1
    (fun p => if p = "d.png" then some ⟨some "image/png", "BYTES"⟩ else none)
    S3_BUCKET "d.png" [] ⟨some "image/png", "BYTES"⟩
    (by decide) (by decide) (by decide) (by decide) (by decide)

/-- C10 witness: a request without `budget_level` makes the prepare path fail
instead of defaulting. -/
theorem C10_budget_level_extraction_witness :
    prepare_resolve (fun _ => none) true []
      ⟨none, none, none, none, none, none, none, 0, [], 0⟩ =
      (Except.error (), ⟨none, none, none, none, none, none, none, 0, [], 0⟩) :=
  C10_budget_level_extraction.2.2.2.1 (fun _ => none) true []
    ⟨none, none, none, none, none, none, none, 0, [], 0⟩ (by decide)

end ThreatDesigner

